import Mathlib

/-
Verification of the RoluATM withdrawal coordination core against its
specification.  The Next.js API routes under
`src/rolu-atm-nextjs/src/app/api/` and the kiosk-completion route are
shallowly embedded as pure functions over an explicit database state.
Currency amounts are embedded as `Int` (the routes only compare and
add/subtract them), statuses as the literal strings the code stores.
-/

namespace RoluATM

/-- A user account record, with the fields the routes read
(`id`, `wallet_address`, `balance`). -/
structure User where
  id : String
  wallet_address : Option String
  balance : Int
  deriving DecidableEq, Repr

/-- A withdrawal record with the fields the routes read and write. -/
structure Withdrawal where
  id : String
  transaction_id : String
  user_id : String
  wallet_address : String
  amount : Int
  status : String
  kiosk_id : Option String
  pin : Option String
  pin_expires_at : Option Int
  transaction_hash : Option String
  dispensed_at : Option Int
  created_at : Int
  updated_at : Int
  deriving DecidableEq, Repr

/-- A transaction record as created by the synchronous withdraw route. -/
structure Transaction where
  id : String
  user_id : String
  amount : Int
  type : String
  status : String
  deriving DecidableEq, Repr

/-- The database state: the record stores the routes touch. -/
structure DB where
  users : List User
  withdrawals : List Withdrawal
  transactions : List Transaction
  deriving DecidableEq, Repr

/-- Modelled from the spec: `lib/database.getUserById` is not under `src/`
(only its callers are); section 2 describes the Ledger Store as a record
store with lookup by id. -/
def getUserById (db : DB) (uid : String) : Option User :=
  db.users.find? (fun u => u.id == uid)

/-- Modelled from the spec: `lib/database.getWithdrawal` is not under `src/`;
section 6 requires Withdrawal records to be retrievable by withdrawal id. -/
def getWithdrawal (db : DB) (wid : String) : Option Withdrawal :=
  db.withdrawals.find? (fun w => w.id == wid)

/-- Read accessor for a transaction record by id (Ledger Store lookup). -/
def getTransaction (db : DB) (txid : String) : Option Transaction :=
  db.transactions.find? (fun tx => tx.id == txid)

/-- Modelled from the spec: `lib/database.updateUserBalance` is not under
`src/`; it writes the given balance on the account record with that id. -/
def updateUserBalance (db : DB) (uid : String) (newBalance : Int) : DB :=
  { db with users := db.users.map (fun u => if u.id == uid then { u with balance := newBalance } else u) }

/-- The partial update object passed to `updateWithdrawal` by the
kiosk-completion route: a `some` field is written, a `none` field is left
untouched on the record. -/
structure WithdrawalPatch where
  status : Option String
  kiosk_id : Option (Option String)
  dispensed_at : Option Int
  deriving DecidableEq, Repr

/-- Apply a partial update to one withdrawal record. -/
def applyPatch (w : Withdrawal) (p : WithdrawalPatch) : Withdrawal :=
  { w with
    status := p.status.getD w.status,
    kiosk_id := p.kiosk_id.getD w.kiosk_id,
    dispensed_at := (p.dispensed_at.map some).getD w.dispensed_at }

/-- Modelled from the spec: `lib/database.updateWithdrawal` is not under
`src/`; section 2's Ledger Store applies a read-modify-write of the given
fields on the record with that id (no status guard of its own — the spec
places idempotency checks in the Coordinator, not the store). -/
def updateWithdrawal (db : DB) (wid : String) (p : WithdrawalPatch) : DB :=
  { db with withdrawals := db.withdrawals.map (fun w => if w.id == wid then applyPatch w p else w) }

/-- The creation payload handed to `createWithdrawal` by the
initiate-withdrawal route. -/
structure NewWithdrawal where
  transaction_id : String
  user_id : String
  wallet_address : String
  amount : Int
  status : String
  deriving DecidableEq, Repr

/-- The fresh record `createWithdrawal` inserts for a new payment
reference. -/
def newWithdrawalRecord (freshId : String) (now : Int) (data : NewWithdrawal) : Withdrawal :=
  { id := freshId, transaction_id := data.transaction_id, user_id := data.user_id,
    wallet_address := data.wallet_address, amount := data.amount, status := data.status,
    kiosk_id := none, pin := none, pin_expires_at := none, transaction_hash := none,
    dispensed_at := none, created_at := now, updated_at := now }

/-- Modelled from the spec: `lib/database.createWithdrawal` is not under
`src/` (only its caller is).  Section 6: `createWithdrawal` treats the
payment reference as the idempotency key — if a record with that reference
is already present it returns the existing record's id, not an error;
otherwise it inserts `newWithdrawalRecord`. -/
def createWithdrawal (db : DB) (freshId : String) (now : Int) (data : NewWithdrawal) : DB × Withdrawal :=
  match db.withdrawals.find? (fun w => w.transaction_id == data.transaction_id) with
  | some w => (db, w)
  | none =>
    ({ db with withdrawals := newWithdrawalRecord freshId now data :: db.withdrawals },
      newWithdrawalRecord freshId now data)

/-- Modelled from the spec: `lib/auth.verifyAuthToken` is not under `src/`;
the routes use only `decoded.userId`, so a valid token is embedded as the
user id it authenticates (an absent cookie is `Option.none` at call sites). -/
structure AuthToken where
  userId : String
  deriving DecidableEq, Repr

/-- The decoded token object; the routes read `decoded.userId`. -/
structure Decoded where
  userId : String
  deriving DecidableEq, Repr

/-- Token decoding (see `AuthToken`). -/
def verifyAuthToken (t : AuthToken) : Decoded := ⟨t.userId⟩

/-! ### Kiosk completion route (`src/unnamed/part_007`, `POST`) -/

/-- The responses of the kiosk-completion route that the claims observe. -/
inductive KioskResponse where
  | missingFields
  | processed
  deriving DecidableEq, Repr

/-- The kiosk-completion `POST` handler (`src/unnamed/part_007`): validates
presence of `withdrawalId` and a boolean `success`, then unconditionally
writes `status = "completed"` (with `dispensed_at`) or `status = "failed"`,
together with the reporting kiosk id, on the referenced withdrawal.  It
never reads the stored status and never touches any user balance. -/
def kioskCompletionPOST (db : DB) (withdrawalId : Option String) (kioskId : Option String)
    (success : Option Bool) (now : Int) : DB × KioskResponse :=
  if withdrawalId.getD "" == "" || success.isNone then
    (db, .missingFields)
  else if success.getD false then
    (updateWithdrawal db (withdrawalId.getD "")
      { status := some "completed", kiosk_id := some kioskId, dispensed_at := some now }, .processed)
  else
    (updateWithdrawal db (withdrawalId.getD "")
      { status := some "failed", kiosk_id := some kioskId, dispensed_at := none }, .processed)

/-! ### Initiate-withdrawal route
(`src/rolu-atm-nextjs/src/app/api/initiate-withdrawal/route.ts`, first
segment, `POST`) -/

/-- The responses of the initiate-withdrawal route. -/
inductive InitiateResponse where
  | notAuthenticated
  | missingFields
  | userNotFound
  | noWallet
  | invalidAmount
  | exceedsLimit
  | insufficientBalance
  | initiated (withdrawalId : String)
  deriving DecidableEq, Repr

/-- The initiate-withdrawal `POST` handler: auth cookie check, field
presence check (JavaScript truthiness: an absent or empty `transactionId`
and an absent or zero `amount` are falsy), user lookup, wallet check,
amount guards, balance guard, then `createWithdrawal` with status
`"pending"`.  The background `monitorTransaction` task mutates no state
inside this handler. -/
def initiateWithdrawalPOST (db : DB) (token : Option AuthToken)
    (transactionId : Option String) (amount : Option Int)
    (freshId : String) (now : Int) : DB × InitiateResponse :=
  match token with
  | none => (db, .notAuthenticated)
  | some t =>
    let decoded := verifyAuthToken t
    if transactionId.getD "" == "" || amount.getD 0 == 0 then
      (db, .missingFields)
    else
      match getUserById db decoded.userId with
      | none => (db, .userNotFound)
      | some user =>
        if user.wallet_address.getD "" == "" then (db, .noWallet)
        else
          let walletAddress := user.wallet_address.getD ""
          let amt := amount.getD 0
          if amt ≤ 0 then (db, .invalidAmount)
          else if 500 < amt then (db, .exceedsLimit)
          else if user.balance < amt then (db, .insufficientBalance)
          else
            let res := createWithdrawal db freshId now
              { transaction_id := transactionId.getD "", user_id := user.id,
                wallet_address := walletAddress, amount := amt, status := "pending" }
            (res.1, .initiated res.2.id)

/-! ### Withdrawal-status route (`route.ts`, second segment, `GET`) -/

/-- The JSON snapshot the status route returns; `pin` is `none` when the
route leaves the field `undefined`. -/
structure StatusSnapshot where
  id : String
  status : String
  amount : Int
  transaction_id : String
  transaction_hash : Option String
  pin : Option String
  pin_expires_at : Option Int
  created_at : Int
  updated_at : Int
  deriving DecidableEq, Repr

/-- The responses of the withdrawal-status route. -/
inductive StatusResponse where
  | notAuthenticated
  | notFound
  | accessDenied
  | snapshot (s : StatusSnapshot)
  deriving DecidableEq, Repr

/-- The withdrawal-status `GET` handler: auth cookie check, withdrawal
lookup, ownership check, then the snapshot with
`pin = (status == "pin_sent") ? withdrawal.pin : undefined`. -/
def withdrawalStatusGET (db : DB) (token : Option AuthToken) (wid : String) : StatusResponse :=
  match token with
  | none => .notAuthenticated
  | some t =>
    let decoded := verifyAuthToken t
    match getWithdrawal db wid with
    | none => .notFound
    | some w =>
      if w.user_id != decoded.userId then .accessDenied
      else .snapshot
        { id := w.id, status := w.status, amount := w.amount,
          transaction_id := w.transaction_id, transaction_hash := w.transaction_hash,
          pin := if w.status == "pin_sent" then w.pin else none,
          pin_expires_at := w.pin_expires_at, created_at := w.created_at,
          updated_at := w.updated_at }

/-! ### Balance route
(`src/rolu-atm-nextjs/src/app/api/balance/route.ts`, first segment, `GET`) -/

/-- The responses of the balance route. -/
inductive BalanceResponse where
  | notAuthenticated
  | userNotFound
  | balanceOf (userId : String) (balance : Int)
  deriving DecidableEq, Repr

/-- The balance `GET` handler: auth cookie check, user lookup; when a
wallet is connected and the blockchain fetch succeeds (embedded as the
`freshBalance` input, `none` meaning the fetch threw) the stored balance is
refreshed, otherwise the cached balance is returned. -/
def balanceGET (db : DB) (token : Option AuthToken) (freshBalance : Option Int) :
    DB × BalanceResponse :=
  match token with
  | none => (db, .notAuthenticated)
  | some t =>
    let decoded := verifyAuthToken t
    match getUserById db decoded.userId with
    | none => (db, .userNotFound)
    | some user =>
      match user.wallet_address, freshBalance with
      | some _, some fb => (updateUserBalance db user.id fb, .balanceOf user.id fb)
      | _, _ => (db, .balanceOf user.id user.balance)

/-! ### Synchronous withdraw route (`route.ts`, third segment) -/

/-- The result object of `triggerCashDispense` as consumed by the withdraw
handler. -/
structure DispenseResult where
  success : Bool
  message : Option String
  deriving DecidableEq, Repr

/-- The kiosk's HTTP reply as observed by `triggerCashDispense`'s
real-hardware path: `ok` is the 2xx flag of the response status, `message`
the optional error-body message. -/
structure KioskHttpResponse where
  ok : Bool
  message : Option String
  deriving DecidableEq, Repr

/-- The decision logic of `triggerCashDispense`'s real-hardware path
(`route.ts` third segment, lines 187–194): the dispense outcome is derived
from the HTTP status of the kiosk's reply (`response.ok`), not from any
explicit success field of the body. -/
def triggerCashDispense (resp : KioskHttpResponse) : DispenseResult :=
  if resp.ok then { success := true, message := none }
  else { success := false, message := some (resp.message.getD "Hardware error") }

/-- Write a new status on the transaction record with the given id
(`lib/database.updateTransactionStatus`, modelled from the spec's Ledger
Store as the single-record write the route requests). -/
def updateTransactionStatus (db : DB) (txid : String) (status : String) : DB :=
  { db with transactions := db.transactions.map (fun tx => if tx.id == txid then { tx with status := status } else tx) }

/-- The responses of the synchronous withdraw route. -/
inductive WithdrawResponse where
  | notAuthenticated
  | invalidAmount
  | exceedsLimit
  | userNotFound
  | insufficientBalance
  | dispensed (transactionId : String) (amount : Int) (newBalance : Int)
  | dispenseFailed (message : Option String)
  deriving DecidableEq, Repr

/-- The synchronous withdraw `POST` handler (`route.ts`, third segment):
guards, then creates a `"processing"` transaction, optimistically
decrements the balance, consumes the dispense result, and either marks the
transaction `"completed"` (success) or restores the balance read at entry
and marks the transaction `"failed"`. -/
def withdrawPOST (db : DB) (token : Option AuthToken) (amount : Option Int)
    (freshTxId : String) (dispenseResult : DispenseResult) : DB × WithdrawResponse :=
  match token with
  | none => (db, .notAuthenticated)
  | some t =>
    let decoded := verifyAuthToken t
    let amt := amount.getD 0
    if amt ≤ 0 then (db, .invalidAmount)
    else if 500 < amt then (db, .exceedsLimit)
    else
      match getUserById db decoded.userId with
      | none => (db, .userNotFound)
      | some user =>
        if user.balance < amt then (db, .insufficientBalance)
        else
          let tx : Transaction :=
            { id := freshTxId, user_id := user.id, amount := amt,
              type := "withdrawal", status := "processing" }
          let db1 : DB := { db with transactions := tx :: db.transactions }
          let newBalance := user.balance - amt
          let db2 := updateUserBalance db1 user.id newBalance
          if dispenseResult.success then
            (updateTransactionStatus db2 freshTxId "completed",
              .dispensed freshTxId amt newBalance)
          else
            (updateTransactionStatus (updateUserBalance db2 user.id user.balance) freshTxId "failed",
              .dispenseFailed dispenseResult.message)

/-! ### Concrete example records, used to evaluate the routes on real data -/

/-- Example account: balance 30 after a 20 reservation from an initial 50. -/
def exUser : User := { id := "u1", wallet_address := some "0xabc", balance := 30 }

/-- Example withdrawal already in the terminal status `"expired"`. -/
def exExpired : Withdrawal :=
  { id := "w1", transaction_id := "t1", user_id := "u1", wallet_address := "0xabc",
    amount := 20, status := "expired", kiosk_id := none, pin := none,
    pin_expires_at := none, transaction_hash := none, dispensed_at := none,
    created_at := 0, updated_at := 0 }

/-- Database holding only `exUser` and the expired withdrawal. -/
def exDB1 : DB := { users := [exUser], withdrawals := [exExpired], transactions := [] }

/-- Example withdrawal in status `"dispensing"` with a live PIN; `exUser`'s
balance is 30 because 20 of an initial 50 is reserved against it. -/
def exDispensing : Withdrawal :=
  { id := "w1", transaction_id := "t1", user_id := "u1", wallet_address := "0xabc",
    amount := 20, status := "dispensing", kiosk_id := none, pin := some "123456",
    pin_expires_at := some 600, transaction_hash := none, dispensed_at := none,
    created_at := 0, updated_at := 0 }

/-- Database holding `exUser` and the dispensing withdrawal. -/
def exDB2 : DB := { users := [exUser], withdrawals := [exDispensing], transactions := [] }

/-- Example account with balance 80 and no in-flight withdrawal. -/
def exRichUser : User := { id := "u1", wallet_address := some "0xabc", balance := 80 }

/-- Database holding only `exRichUser`. -/
def exDB3 : DB := { users := [exRichUser], withdrawals := [], transactions := [] }

/-- Example account with balance 10 (insufficient for a 20 request). -/
def exPoorUser : User := { id := "u1", wallet_address := some "0xabc", balance := 10 }

/-- Database holding only `exPoorUser`. -/
def exDB4 : DB := { users := [exPoorUser], withdrawals := [], transactions := [] }

/-- Example account `u2`: balance 45 after a 30 reservation from an initial
75, the reservation held by `exDispensing2`. -/
def exUser2 : User := { id := "u2", wallet_address := some "0xdef", balance := 45 }

/-- Example dispensing withdrawal of 30 for account `u2`. -/
def exDispensing2 : Withdrawal :=
  { id := "w2", transaction_id := "t2", user_id := "u2", wallet_address := "0xdef",
    amount := 30, status := "dispensing", kiosk_id := none, pin := some "777777",
    pin_expires_at := some 600, transaction_hash := none, dispensed_at := none,
    created_at := 0, updated_at := 0 }

/-- Database holding `exUser2` and its dispensing withdrawal. -/
def exDB6 : DB := { users := [exUser2], withdrawals := [exDispensing2], transactions := [] }

/-- Example withdrawal in the authorized window (status `"pin_sent"`) owned
by `u1`. -/
def exPinSent : Withdrawal :=
  { id := "w3", transaction_id := "t3", user_id := "u1", wallet_address := "0xabc",
    amount := 20, status := "pin_sent", kiosk_id := some "k1", pin := some "654321",
    pin_expires_at := some 600, transaction_hash := some "0xh3", dispensed_at := none,
    created_at := 1, updated_at := 2 }

/-- Database holding `exUser` and the `"pin_sent"` withdrawal. -/
def exDB7 : DB := { users := [exUser], withdrawals := [exPinSent], transactions := [] }

/-- A withdrawal `w5` owned by `u2`, first variant of its contents. -/
def exForeignA : Withdrawal :=
  { id := "w5", transaction_id := "t5", user_id := "u2", wallet_address := "0xdef",
    amount := 20, status := "pin_sent", kiosk_id := none, pin := some "111111",
    pin_expires_at := some 600, transaction_hash := none, dispensed_at := none,
    created_at := 0, updated_at := 0 }

/-- A withdrawal `w5` owned by `u2`, second variant differing in every
content field. -/
def exForeignB : Withdrawal :=
  { id := "w5", transaction_id := "t5x", user_id := "u2", wallet_address := "0xdef",
    amount := 400, status := "completed", kiosk_id := some "k9", pin := none,
    pin_expires_at := none, transaction_hash := some "0xdead", dispensed_at := some 7,
    created_at := 3, updated_at := 4 }

/-- Database holding the first variant of the foreign withdrawal. -/
def exDB8 : DB := { users := [exUser, exUser2], withdrawals := [exForeignA], transactions := [] }

/-- Database holding the second variant of the foreign withdrawal. -/
def exDB9 : DB := { users := [exUser, exUser2], withdrawals := [exForeignB], transactions := [] }

/-! ### Store lemmas -/

/-- `applyPatch` never changes the record's id. -/
theorem applyPatch_id (w : Withdrawal) (p : WithdrawalPatch) : (applyPatch w p).id = w.id := rfl

/-- Updating a withdrawal record commutes with looking it up. -/
theorem getWithdrawal_updateWithdrawal (db : DB) (wid : String) (p : WithdrawalPatch) :
    getWithdrawal (updateWithdrawal db wid p) wid
      = (getWithdrawal db wid).map (fun w => applyPatch w p) := by
  show (db.withdrawals.map _).find? _ = (db.withdrawals.find? _).map _
  induction db.withdrawals with
  | nil => rfl
  | cons w ws ih =>
    rw [List.map_cons]
    cases hb : (w.id == wid) with
    | true =>
      have h2 : ((applyPatch w p).id == wid) = true := by rw [applyPatch_id]; exact hb
      rw [if_pos rfl,
        @List.find?_cons_of_pos _ (fun x => x.id == wid) (applyPatch w p) _ h2,
        @List.find?_cons_of_pos _ (fun x => x.id == wid) w _ hb]
      rfl
    | false =>
      have h2 : ¬ ((w.id == wid) = true) := by rw [hb]; exact Bool.false_ne_true
      rw [if_neg Bool.false_ne_true,
        @List.find?_cons_of_neg _ (fun x => x.id == wid) w _ h2,
        @List.find?_cons_of_neg _ (fun x => x.id == wid) w _ h2]
      exact ih

/-- `updateWithdrawal` never touches the account records. -/
theorem users_updateWithdrawal (db : DB) (wid : String) (p : WithdrawalPatch) :
    (updateWithdrawal db wid p).users = db.users := rfl

/-- The kiosk-completion route never touches any account record, hence
never changes any balance. -/
theorem kioskCompletionPOST_users (db : DB) (withdrawalId kioskId : Option String)
    (success : Option Bool) (now : Int) :
    (kioskCompletionPOST db withdrawalId kioskId success now).1.users = db.users := by
  unfold kioskCompletionPOST
  split
  · rfl
  · split <;> rfl

/-- Updating an account balance commutes with looking the account up. -/
theorem getUserById_updateUserBalance (db : DB) (uid : String) (b : Int) :
    getUserById (updateUserBalance db uid b) uid
      = (getUserById db uid).map (fun u => { u with balance := b }) := by
  show (db.users.map _).find? _ = (db.users.find? _).map _
  induction db.users with
  | nil => rfl
  | cons u us ih =>
    rw [List.map_cons]
    cases hb : (u.id == uid) with
    | true =>
      have h2 : (({ u with balance := b } : User).id == uid) = true := hb
      rw [if_pos rfl,
        @List.find?_cons_of_pos _ (fun x => x.id == uid) ({ u with balance := b } : User) _ h2,
        @List.find?_cons_of_pos _ (fun x => x.id == uid) u _ hb]
      rfl
    | false =>
      have h2 : ¬ ((u.id == uid) = true) := by rw [hb]; exact Bool.false_ne_true
      rw [if_neg Bool.false_ne_true,
        @List.find?_cons_of_neg _ (fun x => x.id == uid) u _ h2,
        @List.find?_cons_of_neg _ (fun x => x.id == uid) u _ h2]
      exact ih

/-- `updateTransactionStatus` never touches the account records. -/
theorem getUserById_updateTransactionStatus (db : DB) (txid s uid : String) :
    getUserById (updateTransactionStatus db txid s) uid = getUserById db uid := rfl

/-- `updateUserBalance` never touches the transaction records. -/
theorem getTransaction_updateUserBalance (db : DB) (uid : String) (b : Int) (txid : String) :
    getTransaction (updateUserBalance db uid b) txid = getTransaction db txid := rfl

/-- On a well-formed report the kiosk-completion route reduces to the one
`updateWithdrawal` write its branch requests. -/
theorem kioskCompletionPOST_eq (db : DB) (wid : String) (kid : Option String) (b : Bool) (now : Int)
    (hwid : wid ≠ "") :
    kioskCompletionPOST db (some wid) kid (some b) now =
      (updateWithdrawal db wid
        (if b then ⟨some "completed", some kid, some now⟩ else ⟨some "failed", some kid, none⟩),
       .processed) := by
  have hW : (wid == "") = false := beq_eq_false_iff_ne.mpr hwid
  unfold kioskCompletionPOST
  cases b with
  | true => simp [hW]
  | false => simp [hW]

/-! ### Claim C1 -/

/-- Claim C1 (amended): processing a kiosk completion report never changes
any account balance, but it is not a no-op on a withdrawal whose stored
status is already terminal: the stored status is unconditionally
overwritten to `"completed"` (`success=true`) or `"failed"`
(`success=false`), with no check of the stored status. -/
theorem C1_kiosk_report_not_noop_on_terminal
    (db : DB) (wid : String) (kid : Option String) (b : Bool) (now : Int)
    (w : Withdrawal) (hwid : wid ≠ "") (hw : getWithdrawal db wid = some w) :
    (kioskCompletionPOST db (some wid) kid (some b) now).1.users = db.users ∧
    (getWithdrawal (kioskCompletionPOST db (some wid) kid (some b) now).1 wid).map Withdrawal.status
      = some (if b then "completed" else "failed") := by
  refine ⟨kioskCompletionPOST_users db (some wid) kid (some b) now, ?_⟩
  rw [kioskCompletionPOST_eq db wid kid b now hwid]
  show (getWithdrawal (updateWithdrawal db wid _) wid).map _ = _
  rw [getWithdrawal_updateWithdrawal, hw]
  cases b <;> rfl

/-- Claim C1 witness: the amended statement evaluated on `exDB1`. -/
theorem C1_kiosk_report_not_noop_on_terminal_witness :
    (kioskCompletionPOST exDB1 (some "w1") (some "k1") (some true) 5).1.users = exDB1.users ∧
    (getWithdrawal (kioskCompletionPOST exDB1 (some "w1") (some "k1") (some true) 5).1 "w1").map Withdrawal.status
      = some (if true then "completed" else "failed") :=
  C1_kiosk_report_not_noop_on_terminal exDB1 "w1" (some "k1") true 5 exExpired
    (by decide) (by decide)

/-- Claim C1 counterexample: on the withdrawal `"w1"` already in the
terminal status `"expired"`, a `success=true` kiosk report rewrites the
stored status to `"completed"` — the stored terminal status is not
unchanged, contradicting the claimed no-op. -/
theorem C1_counterexample :
    (getWithdrawal (kioskCompletionPOST exDB1 (some "w1") (some "k1") (some true) 5).1 "w1").map Withdrawal.status
      = some "completed" ∧ ("completed" : String) ≠ "expired" := by decide

/-! ### Claim C4 -/

/-- Claim C4 (amended): for a withdrawal in the `"dispensing"` state, a
kiosk completion report with `success=false` moves its status to
`"failed"` and records the reporting kiosk id, but it does not restore the
reserved amount (no account record is touched) and it does not erase the
stored PIN (the `pin` field is left as it was). -/
theorem C4_failure_report_keeps_balance_and_pin
    (db : DB) (wid kid : String) (now : Int) (w : Withdrawal)
    (hwid : wid ≠ "") (hw : getWithdrawal db wid = some w) (_hst : w.status = "dispensing") :
    (kioskCompletionPOST db (some wid) (some kid) (some false) now).1.users = db.users ∧
    getWithdrawal (kioskCompletionPOST db (some wid) (some kid) (some false) now).1 wid
      = some { w with status := "failed", kiosk_id := some kid } := by
  refine ⟨kioskCompletionPOST_users db (some wid) (some kid) (some false) now, ?_⟩
  rw [kioskCompletionPOST_eq db wid (some kid) false now hwid]
  show getWithdrawal (updateWithdrawal db wid _) wid = _
  rw [getWithdrawal_updateWithdrawal, hw]
  rfl

/-- Claim C4 witness: the amended statement evaluated on `exDB2`. -/
theorem C4_failure_report_keeps_balance_and_pin_witness :
    (kioskCompletionPOST exDB2 (some "w1") (some "k1") (some false) 5).1.users = exDB2.users ∧
    getWithdrawal (kioskCompletionPOST exDB2 (some "w1") (some "k1") (some false) 5).1 "w1"
      = some { exDispensing with status := "failed", kiosk_id := some "k1" } :=
  C4_failure_report_keeps_balance_and_pin exDB2 "w1" "k1" 5 exDispensing
    (by decide) (by decide) (by decide)

/-- Claim C4 counterexample: in `exDB2` the account `u1` holds 30 because
20 of an initial 50 is reserved against the dispensing withdrawal `w1`
(PIN `"123456"`).  After the `success=false` report the status is
`"failed"` but the balance is still 30 (not restored to 50) and the PIN is
still stored — contradicting the claimed balance restoration and PIN
erasure. -/
theorem C4_counterexample :
    (getWithdrawal (kioskCompletionPOST exDB2 (some "w1") (some "k1") (some false) 5).1 "w1").map Withdrawal.status
      = some "failed" ∧
    (getUserById (kioskCompletionPOST exDB2 (some "w1") (some "k1") (some false) 5).1 "u1").map User.balance
      = some 30 ∧ (30 : Int) ≠ 30 + 20 ∧
    (getWithdrawal (kioskCompletionPOST exDB2 (some "w1") (some "k1") (some false) 5).1 "w1").map Withdrawal.pin
      = some (some "123456") := by decide

/-! ### Claim C5 -/

/-- Claim C5 (amended): for a withdrawal in the `"dispensing"` state, a
kiosk completion report with `success=true` moves its status to
`"completed"`, sets the dispensed timestamp and records the kiosk id, but
it does not erase the PIN from the record (the `pin` field is left as it
was). -/
theorem C5_success_report_completes_but_keeps_pin
    (db : DB) (wid kid : String) (now : Int) (w : Withdrawal)
    (hwid : wid ≠ "") (hw : getWithdrawal db wid = some w) (_hst : w.status = "dispensing") :
    (kioskCompletionPOST db (some wid) (some kid) (some true) now).1.users = db.users ∧
    getWithdrawal (kioskCompletionPOST db (some wid) (some kid) (some true) now).1 wid
      = some { w with status := "completed", kiosk_id := some kid, dispensed_at := some now } := by
  refine ⟨kioskCompletionPOST_users db (some wid) (some kid) (some true) now, ?_⟩
  rw [kioskCompletionPOST_eq db wid (some kid) true now hwid]
  show getWithdrawal (updateWithdrawal db wid _) wid = _
  rw [getWithdrawal_updateWithdrawal, hw]
  rfl

/-- Claim C5 witness: the amended statement evaluated on `exDB2`. -/
theorem C5_success_report_completes_but_keeps_pin_witness :
    (kioskCompletionPOST exDB2 (some "w1") (some "k1") (some true) 5).1.users = exDB2.users ∧
    getWithdrawal (kioskCompletionPOST exDB2 (some "w1") (some "k1") (some true) 5).1 "w1"
      = some { exDispensing with status := "completed", kiosk_id := some "k1", dispensed_at := some 5 } :=
  C5_success_report_completes_but_keeps_pin exDB2 "w1" "k1" 5 exDispensing
    (by decide) (by decide) (by decide)

/-- Claim C5 counterexample: after a `success=true` report on the
dispensing withdrawal `w1` (stored PIN `"123456"`), the status is
`"completed"` and the dispensed timestamp is set, but the PIN is still in
the record — contradicting the claimed PIN erasure. -/
theorem C5_counterexample :
    (getWithdrawal (kioskCompletionPOST exDB2 (some "w1") (some "k1") (some true) 5).1 "w1").map Withdrawal.status
      = some "completed" ∧
    (getWithdrawal (kioskCompletionPOST exDB2 (some "w1") (some "k1") (some true) 5).1 "w1").map Withdrawal.dispensed_at
      = some (some 5) ∧
    (getWithdrawal (kioskCompletionPOST exDB2 (some "w1") (some "k1") (some true) 5).1 "w1").map Withdrawal.pin
      = some (some "123456") := by decide

/-- `createWithdrawal` on an absent payment reference inserts the fresh
record. -/
theorem createWithdrawal_of_absent (db : DB) (freshId : String) (now : Int) (data : NewWithdrawal)
    (h0 : db.withdrawals.find? (fun w => w.transaction_id == data.transaction_id) = none) :
    createWithdrawal db freshId now data =
      ({ db with withdrawals := newWithdrawalRecord freshId now data :: db.withdrawals },
        newWithdrawalRecord freshId now data) := by
  unfold createWithdrawal
  rw [h0]

/-- `createWithdrawal` on a present payment reference returns the existing
record and leaves the store unchanged. -/
theorem createWithdrawal_of_present (db : DB) (freshId : String) (now : Int) (data : NewWithdrawal)
    (w : Withdrawal)
    (h : db.withdrawals.find? (fun x => x.transaction_id == data.transaction_id) = some w) :
    createWithdrawal db freshId now data = (db, w) := by
  unfold createWithdrawal
  rw [h]

/-! ### Claim C2 -/

/-- Claim C2: invoking `createWithdrawal` twice with the same payment
reference returns the same withdrawal id both times and leaves exactly one
withdrawal record for that reference — the second call returns the
existing record, not an error, and does not change the store. -/
theorem C2_createWithdrawal_idempotent
    (db : DB) (d : NewWithdrawal) (id1 id2 : String) (n1 n2 : Int)
    (h0 : db.withdrawals.find? (fun w => w.transaction_id == d.transaction_id) = none) :
    (createWithdrawal (createWithdrawal db id1 n1 d).1 id2 n2 d).2.id
      = (createWithdrawal db id1 n1 d).2.id ∧
    (createWithdrawal (createWithdrawal db id1 n1 d).1 id2 n2 d).1
      = (createWithdrawal db id1 n1 d).1 ∧
    ((createWithdrawal db id1 n1 d).1.withdrawals.filter
        (fun w => w.transaction_id == d.transaction_id)).length = 1 := by
  have hfil : db.withdrawals.filter (fun w => w.transaction_id == d.transaction_id) = [] :=
    List.filter_eq_nil_iff.mpr (List.find?_eq_none.mp h0)
  have hfind : List.find? (fun w => w.transaction_id == d.transaction_id)
      (newWithdrawalRecord id1 n1 d :: db.withdrawals) = some (newWithdrawalRecord id1 n1 d) :=
    List.find?_cons_of_pos _ (beq_self_eq_true d.transaction_id)
  rw [createWithdrawal_of_absent db id1 n1 d h0,
    createWithdrawal_of_present _ id2 n2 d _ hfind]
  refine ⟨rfl, rfl, ?_⟩
  have hfc : List.filter (fun w => w.transaction_id == d.transaction_id)
      (newWithdrawalRecord id1 n1 d :: db.withdrawals)
      = newWithdrawalRecord id1 n1 d
          :: List.filter (fun w => w.transaction_id == d.transaction_id) db.withdrawals :=
    List.filter_cons_of_pos (beq_self_eq_true d.transaction_id)
  show (List.filter _ (newWithdrawalRecord id1 n1 d :: db.withdrawals)).length = 1
  rw [hfc, hfil]
  rfl

/-- Claim C2 witness: two `createWithdrawal` calls for the payment
reference `"t9"` on a store with no record for it. -/
theorem C2_createWithdrawal_idempotent_witness :
    (createWithdrawal (createWithdrawal exDB4 "wA" 1 ⟨"t9", "u1", "0xabc", 20, "pending"⟩).1
        "wB" 2 ⟨"t9", "u1", "0xabc", 20, "pending"⟩).2.id
      = (createWithdrawal exDB4 "wA" 1 ⟨"t9", "u1", "0xabc", 20, "pending"⟩).2.id ∧
    (createWithdrawal (createWithdrawal exDB4 "wA" 1 ⟨"t9", "u1", "0xabc", 20, "pending"⟩).1
        "wB" 2 ⟨"t9", "u1", "0xabc", 20, "pending"⟩).1
      = (createWithdrawal exDB4 "wA" 1 ⟨"t9", "u1", "0xabc", 20, "pending"⟩).1 ∧
    ((createWithdrawal exDB4 "wA" 1 ⟨"t9", "u1", "0xabc", 20, "pending"⟩).1.withdrawals.filter
        (fun w => w.transaction_id == ("t9" : String))).length = 1 :=
  C2_createWithdrawal_idempotent exDB4 ⟨"t9", "u1", "0xabc", 20, "pending"⟩ "wA" "wB" 1 2
    (by decide)

/-! ### Claim C6 -/

/-- Claim C6 (code bug): `triggerCashDispense`'s real-hardware path derives
the dispense outcome solely from the HTTP status flag of the kiosk's
reply — any 2xx reply, even one carrying no explicit success field in its
body, is reported to the caller as a successful dispense, and the withdraw
handler finalizes on that result.  This contradicts the claim (and the
spec, which flags exactly this inference as a latent bug). -/
theorem C6_dispense_success_inferred_from_http_ok :
    (triggerCashDispense { ok := true, message := none }).success = true ∧
    ∀ resp : KioskHttpResponse, (triggerCashDispense resp).success = resp.ok := by
  refine ⟨rfl, ?_⟩
  rintro ⟨ok, msg⟩
  cases ok <;> rfl

/-! ### Claim C7 -/

/-- Claim C7 (amended): a create-withdrawal request whose account balance
is less than the requested amount is rejected synchronously with the
`Insufficient balance` error — visible to the caller — and no Withdrawal
record is created and no stored state is mutated (the claim's
"record created then immediately failed" does not happen). -/
theorem C7_insufficient_balance_rejected_without_record
    (db : DB) (t : AuthToken) (tid : String) (amt : Int) (fid : String) (now : Int) (user : User)
    (htid : tid ≠ "") (hu : getUserById db t.userId = some user)
    (hwallet : user.wallet_address.getD "" ≠ "")
    (hpos : 0 < amt) (hlim : amt ≤ 500) (hbal : user.balance < amt) :
    initiateWithdrawalPOST db (some t) (some tid) (some amt) fid now
      = (db, .insufficientBalance) := by
  have h1 : (tid == "") = false := beq_eq_false_iff_ne.mpr htid
  have h2 : (amt == 0) = false := beq_eq_false_iff_ne.mpr (by omega)
  have h3 : (user.wallet_address.getD "" == "") = false := beq_eq_false_iff_ne.mpr hwallet
  have h4 : ¬ amt ≤ 0 := by omega
  have h5 : ¬ (500 : Int) < amt := by omega
  simp [initiateWithdrawalPOST, verifyAuthToken, hu, h1, h2, h3, h4, h5, hbal]

/-- Claim C7 witness: the amended statement evaluated on `exDB4`
(balance 10, request 20). -/
theorem C7_insufficient_balance_rejected_without_record_witness :
    initiateWithdrawalPOST exDB4 (some ⟨"u1"⟩) (some "t9") (some 20) "w9" 7
      = (exDB4, .insufficientBalance) :=
  C7_insufficient_balance_rejected_without_record exDB4 ⟨"u1"⟩ "t9" 20 "w9" 7 exPoorUser
    (by decide) (by decide) (by decide) (by decide) (by decide) (by decide)

/-- Claim C7 counterexample: on `exDB4` (balance 10) a request for 20 is
answered with the `Insufficient balance` error and the withdrawal store is
still empty afterwards — no Withdrawal record was created, let alone one
marked failed, contradicting the claim. -/
theorem C7_counterexample :
    initiateWithdrawalPOST exDB4 (some ⟨"u1"⟩) (some "t9") (some 20) "w9" 7
      = (exDB4, .insufficientBalance) ∧
    (initiateWithdrawalPOST exDB4 (some ⟨"u1"⟩) (some "t9") (some 20) "w9" 7).1.withdrawals
      = [] := by decide

/-! ### Claim C9 -/

/-- Claim C9: a request carrying no auth-token cookie is answered with the
`Not authenticated` error (401) by both the initiate-withdrawal and the
balance operation, and the stored state is returned unchanged. -/
theorem C9_no_token_rejected_without_mutation :
    ∀ (db : DB) (tid : Option String) (amt : Option Int) (fid : String) (now : Int)
      (fb : Option Int),
      initiateWithdrawalPOST db none tid amt fid now = (db, .notAuthenticated) ∧
      balanceGET db none fb = (db, .notAuthenticated) :=
  fun _ _ _ _ _ _ => ⟨rfl, rfl⟩

/-! ### Claim C8 -/

/-- Claim C8: for an authenticated owner request, the status snapshot
carries the stored PIN exactly when the withdrawal is in the authorized
window (status `"pin_sent"`); in every other status the `pin` field is
absent (`none`). -/
theorem C8_pin_returned_iff_pin_sent
    (db : DB) (t : AuthToken) (wid : String) (w : Withdrawal)
    (hw : getWithdrawal db wid = some w) (hown : w.user_id = t.userId) :
    withdrawalStatusGET db (some t) wid = .snapshot
      { id := w.id, status := w.status, amount := w.amount,
        transaction_id := w.transaction_id, transaction_hash := w.transaction_hash,
        pin := if w.status == "pin_sent" then w.pin else none,
        pin_expires_at := w.pin_expires_at, created_at := w.created_at,
        updated_at := w.updated_at } := by
  have hbne : (w.user_id != t.userId) = false := by
    rw [hown]; exact bne_self_eq_false t.userId
  simp [withdrawalStatusGET, verifyAuthToken, hw, hbne]

/-- Claim C8 witness: the statement evaluated on `exDB7`, whose
withdrawal `w3` is in status `"pin_sent"` with stored PIN `"654321"`. -/
theorem C8_pin_returned_iff_pin_sent_witness :
    withdrawalStatusGET exDB7 (some ⟨"u1"⟩) "w3" = .snapshot
      { id := exPinSent.id, status := exPinSent.status, amount := exPinSent.amount,
        transaction_id := exPinSent.transaction_id,
        transaction_hash := exPinSent.transaction_hash,
        pin := if exPinSent.status == "pin_sent" then exPinSent.pin else none,
        pin_expires_at := exPinSent.pin_expires_at, created_at := exPinSent.created_at,
        updated_at := exPinSent.updated_at } :=
  C8_pin_returned_iff_pin_sent exDB7 ⟨"u1"⟩ "w3" exPinSent (by decide) (by decide)

/-! ### Claim C10 -/

/-- Claim C10: an authenticated request for a withdrawal owned by a
different user is answered with the constant `Access denied` response,
which carries none of the withdrawal's fields; two stores whose withdrawal
of that id differs only in its contents (same non-owner) yield the very
same response, so no information about the record flows to a non-owner. -/
theorem C10_access_denied_uniform_for_non_owner
    (db1 db2 : DB) (wid : String) (t : AuthToken) (w1 w2 : Withdrawal)
    (h1 : getWithdrawal db1 wid = some w1) (h2 : getWithdrawal db2 wid = some w2)
    (hn1 : w1.user_id ≠ t.userId) (hn2 : w2.user_id ≠ t.userId) :
    withdrawalStatusGET db1 (some t) wid = .accessDenied ∧
    withdrawalStatusGET db2 (some t) wid = withdrawalStatusGET db1 (some t) wid := by
  have e1 : withdrawalStatusGET db1 (some t) wid = .accessDenied := by
    have hb : (w1.user_id != t.userId) = true := bne_iff_ne.mpr hn1
    simp [withdrawalStatusGET, verifyAuthToken, h1, hb]
  have e2 : withdrawalStatusGET db2 (some t) wid = .accessDenied := by
    have hb : (w2.user_id != t.userId) = true := bne_iff_ne.mpr hn2
    simp [withdrawalStatusGET, verifyAuthToken, h2, hb]
  exact ⟨e1, e2.trans e1.symm⟩

/-- Claim C10 witness: `exDB8` and `exDB9` hold withdrawals with id `w5`
owned by `u2` that differ in every content field; the non-owner `u1`
receives the identical `Access denied` response from both. -/
theorem C10_access_denied_uniform_for_non_owner_witness :
    withdrawalStatusGET exDB8 (some ⟨"u1"⟩) "w5" = .accessDenied ∧
    withdrawalStatusGET exDB9 (some ⟨"u1"⟩) "w5" = withdrawalStatusGET exDB8 (some ⟨"u1"⟩) "w5" :=
  C10_access_denied_uniform_for_non_owner exDB8 exDB9 "w5" ⟨"u1"⟩ exForeignA exForeignB
    (by decide) (by decide) (by decide) (by decide)

/-! ### Claim C3 -/

/-- Writing a transaction status commutes with looking the transaction
up. -/
theorem getTransaction_updateTransactionStatus (db : DB) (txid s : String) :
    getTransaction (updateTransactionStatus db txid s) txid
      = (getTransaction db txid).map (fun tx => { tx with status := s }) := by
  show (db.transactions.map _).find? _ = (db.transactions.find? _).map _
  induction db.transactions with
  | nil => rfl
  | cons tx txs ih =>
    rw [List.map_cons]
    cases hb : (tx.id == txid) with
    | true =>
      have h2 : (({ tx with status := s } : Transaction).id == txid) = true := hb
      rw [if_pos rfl,
        @List.find?_cons_of_pos _ (fun x => x.id == txid) ({ tx with status := s } : Transaction) _ h2,
        @List.find?_cons_of_pos _ (fun x => x.id == txid) tx _ hb]
      rfl
    | false =>
      have h2 : ¬ ((tx.id == txid) = true) := by rw [hb]; exact Bool.false_ne_true
      rw [if_neg Bool.false_ne_true,
        @List.find?_cons_of_neg _ (fun x => x.id == txid) tx _ h2,
        @List.find?_cons_of_neg _ (fun x => x.id == txid) tx _ h2]
      exact ih

/-- The withdraw handler on a successful dispense: balance finalized at
`balance - amount`, transaction marked `"completed"`. -/
theorem withdrawPOST_success_eq
    (db : DB) (t : AuthToken) (amt : Int) (ftx : String) (msg : Option String) (user : User)
    (hu : getUserById db t.userId = some user)
    (hpos : 0 < amt) (hlim : amt ≤ 500) (hbal : ¬ user.balance < amt) :
    withdrawPOST db (some t) (some amt) ftx ⟨true, msg⟩ =
      (updateTransactionStatus
        (updateUserBalance
          { db with transactions := ⟨ftx, user.id, amt, "withdrawal", "processing"⟩ :: db.transactions }
          user.id (user.balance - amt))
        ftx "completed",
       .dispensed ftx amt (user.balance - amt)) := by
  have h4 : ¬ amt ≤ 0 := by omega
  have h5 : ¬ (500 : Int) < amt := by omega
  simp [withdrawPOST, verifyAuthToken, hu, h4, h5, hbal]

/-- The withdraw handler on a failed dispense: the balance read at entry is
written back, the transaction is marked `"failed"`. -/
theorem withdrawPOST_failure_eq
    (db : DB) (t : AuthToken) (amt : Int) (ftx : String) (msg : Option String) (user : User)
    (hu : getUserById db t.userId = some user)
    (hpos : 0 < amt) (hlim : amt ≤ 500) (hbal : ¬ user.balance < amt) :
    withdrawPOST db (some t) (some amt) ftx ⟨false, msg⟩ =
      (updateTransactionStatus
        (updateUserBalance
          (updateUserBalance
            { db with transactions := ⟨ftx, user.id, amt, "withdrawal", "processing"⟩ :: db.transactions }
            user.id (user.balance - amt))
          user.id user.balance)
        ftx "failed",
       .dispenseFailed msg) := by
  have h4 : ¬ amt ≤ 0 := by omega
  have h5 : ¬ (500 : Int) < amt := by omega
  simp [withdrawPOST, verifyAuthToken, hu, h4, h5, hbal]

/-- Claim C3 (amended): in the synchronous withdraw flow the optimistic
debit is reconciled at the terminal transaction state — on dispense
success the balance is finalized at `balance - amount` with the
transaction `"completed"`, on dispense failure the entry balance is
restored exactly once with the transaction `"failed"`, never
double-released.  But in the kiosk-report flow a `success=false`
completion report drives the withdrawal to the terminal `"failed"` status
while touching no account record, so a reservation made for it stays
outstanding at the terminal state. -/
theorem C3_reservation_reconciled_in_sync_flow_only
    (db : DB) (t : AuthToken) (amt : Int) (ftx : String) (s : Bool) (msg : Option String)
    (user : User) (db2 : DB) (wid2 kid2 : Option String) (now2 : Int)
    (hu : getUserById db t.userId = some user)
    (hpos : 0 < amt) (hlim : amt ≤ 500) (hbal : ¬ user.balance < amt) :
    ((getUserById (withdrawPOST db (some t) (some amt) ftx ⟨s, msg⟩).1 t.userId).map User.balance
        = some (if s then user.balance - amt else user.balance)) ∧
    ((getTransaction (withdrawPOST db (some t) (some amt) ftx ⟨s, msg⟩).1 ftx).map Transaction.status
        = some (if s then "completed" else "failed")) ∧
    ((withdrawPOST db (some t) (some amt) ftx ⟨s, msg⟩).2
        = if s then .dispensed ftx amt (user.balance - amt) else .dispenseFailed msg) ∧
    (kioskCompletionPOST db2 wid2 kid2 (some false) now2).1.users = db2.users := by
  have hbeq := List.find?_some hu
  have huid : user.id = t.userId := eq_of_beq hbeq
  have hu' : getUserById db user.id = some user := by rw [huid]; exact hu
  have hdb1 : getUserById
      ({ db with transactions := ⟨ftx, user.id, amt, "withdrawal", "processing"⟩ :: db.transactions } : DB)
      user.id = some user := hu'
  have htx : getTransaction
      ({ db with transactions := ⟨ftx, user.id, amt, "withdrawal", "processing"⟩ :: db.transactions } : DB)
      ftx = some ⟨ftx, user.id, amt, "withdrawal", "processing"⟩ := by
    show List.find? (fun tx => tx.id == ftx)
      (⟨ftx, user.id, amt, "withdrawal", "processing"⟩ :: db.transactions) = _
    exact List.find?_cons_of_pos _ (beq_self_eq_true ftx)
  cases s with
  | true =>
    rw [withdrawPOST_success_eq db t amt ftx msg user hu hpos hlim hbal]
    refine ⟨?_, ?_, rfl, kioskCompletionPOST_users db2 wid2 kid2 (some false) now2⟩
    · rw [← huid, getUserById_updateTransactionStatus, getUserById_updateUserBalance, hdb1]
      rfl
    · rw [getTransaction_updateTransactionStatus, getTransaction_updateUserBalance, htx]
      rfl
  | false =>
    rw [withdrawPOST_failure_eq db t amt ftx msg user hu hpos hlim hbal]
    refine ⟨?_, ?_, rfl, kioskCompletionPOST_users db2 wid2 kid2 (some false) now2⟩
    · rw [← huid, getUserById_updateTransactionStatus, getUserById_updateUserBalance,
        getUserById_updateUserBalance, hdb1]
      rfl
    · rw [getTransaction_updateTransactionStatus, getTransaction_updateUserBalance,
        getTransaction_updateUserBalance, htx]
      rfl

/-- Claim C3 witness: the amended statement evaluated on `exDB3` (balance
80, withdraw 50, dispense success) together with a kiosk failure report on
`exDB1`. -/
theorem C3_reservation_reconciled_in_sync_flow_only_witness :
    ((getUserById (withdrawPOST exDB3 (some ⟨"u1"⟩) (some 50) "tx1" ⟨true, none⟩).1
        (AuthToken.mk "u1").userId).map User.balance
      = some (if true then exRichUser.balance - 50 else exRichUser.balance)) ∧
    ((getTransaction (withdrawPOST exDB3 (some ⟨"u1"⟩) (some 50) "tx1" ⟨true, none⟩).1 "tx1").map
        Transaction.status
      = some (if true then "completed" else "failed")) ∧
    ((withdrawPOST exDB3 (some ⟨"u1"⟩) (some 50) "tx1" ⟨true, none⟩).2
      = if true then .dispensed "tx1" 50 (exRichUser.balance - 50) else .dispenseFailed none) ∧
    (kioskCompletionPOST exDB1 (some "w1") (some "k1") (some false) 9).1.users = exDB1.users :=
  C3_reservation_reconciled_in_sync_flow_only exDB3 ⟨"u1"⟩ 50 "tx1" true none exRichUser
    exDB1 (some "w1") (some "k1") 9 (by decide) (by decide) (by decide) (by decide)

/-- Claim C3 counterexample: in `exDB6` the account `u2` holds 45 because
30 of an initial 75 is reserved against the dispensing withdrawal `w2`.
The kiosk failure report drives `w2` to the terminal status `"failed"`,
yet the balance is still 45 — the reserved 30 is neither reversed (which
would restore 75) nor reconciled in any way at the terminal state,
contradicting the claim. -/
theorem C3_counterexample :
    (getWithdrawal (kioskCompletionPOST exDB6 (some "w2") (some "k1") (some false) 9).1 "w2").map
        Withdrawal.status = some "failed" ∧
    (getUserById (kioskCompletionPOST exDB6 (some "w2") (some "k1") (some false) 9).1 "u2").map
        User.balance = some 45 ∧
    (45 : Int) ≠ 45 + 30 := by decide

end RoluATM
